import Mathlib

/-!
Verification of the ChittyOS Service Registry (`src/auth/index.ts`, the
`ServiceRegistry` class and its module-level singleton accessor).

Shallow embedding notes:
* JS `Map`s are modelled as association lists (`List (String × α)`) with
  `Map.get`/`Map.set`/`Map.delete` semantics: `set` updates an existing key in
  place (keeping its insertion position) and appends a fresh key at the end,
  so iteration order is insertion order and the list length equals `Map.size`.
* `nanoid` calls are modelled by a per-registry counter `nextId`: each call
  consumes the counter and renders it as a string suffix that is injective in
  the counter value.  This determinizes the random id generation while keeping
  its contract (each generated id is fresh).
* Async operations (`connectToService`, `performHealthCheck`) suspend at their
  `await fetch` boundary.  Each is split into a `_start` segment (everything
  before the suspension) and a `_finish` segment (everything after the network
  outcome is available); the network outcome itself is a parameter.  Per the
  cooperative single-threaded model, other operations may run between the two
  segments.
* Wall-clock reads (`Date.now()`, `toISOString()`) are `Nat` parameters.
* `metadata` fields are opaque inert payloads never inspected by the code and
  are omitted from the embedding.  `sendBeacon` telemetry calls and
  `console` logging are external side effects outside the registry state and
  are likewise omitted.
-/

namespace ChittyRegistry

/-- Status of a `ServiceConnection`, from the TS union
`'connecting' | 'connected' | 'disconnected' | 'error'`. -/
inductive ConnStatus
  | connecting
  | connected
  | disconnected
  | error
  deriving Repr, DecidableEq

/-- Status of an individual health check entry (`'pass' | 'fail' | 'warn'`). -/
inductive CheckStatus
  | pass
  | fail
  | warn
  deriving Repr, DecidableEq

/-- One entry of `ServiceHealth.checks`. -/
structure HealthCheck where
  name : String
  status : CheckStatus
  message : Option String
  deriving Repr, DecidableEq

/-- A cataloged service endpoint (TS interface `ServiceEndpoint`).
The `type` field keeps the TS name; its value set
(`api | websocket | grpc | database | storage | custom`) is modelled as a
plain string since the registry never inspects it beyond equality. -/
structure ServiceEndpoint where
  id : String
  name : String
  type : String
  url : String
  protocol : String
  host : String
  port : Option Nat
  path : Option String
  deriving Repr, DecidableEq

/-- The caller-supplied argument of `registerService`
(TS `Omit<ServiceEndpoint, 'id'>`). -/
structure ServiceSpec where
  name : String
  type : String
  url : String
  protocol : String
  host : String
  port : Option Nat
  path : Option String
  deriving Repr, DecidableEq

/-- Drop the `id` field; used when `discoverServices` forwards a fetched
directory entry to `registerService` (the TS spread `{...service, id: ...}`
overrides the incoming `id`). -/
def specOf (e : ServiceEndpoint) : ServiceSpec :=
  { name := e.name, type := e.type, url := e.url, protocol := e.protocol,
    host := e.host, port := e.port, path := e.path }

/-- A logical connection record (TS interface `ServiceConnection`).
`establishedAt` is an abstract timestamp (`Date.toISOString()` in TS). -/
structure ServiceConnection where
  id : String
  serviceId : String
  chittyId : String
  status : ConnStatus
  establishedAt : Option Nat
  lastPingAt : Option Nat
  latency : Option Nat
  error : Option String
  deriving Repr, DecidableEq

/-- A health record (TS interface `ServiceHealth`).  The TS `status` field is
typed `'healthy' | 'degraded' | 'unhealthy' | 'unknown'`, but
`performHealthCheck` copies an unvalidated remote payload value into it
(`health.status = healthData.status` with `healthData` typed `any`), so the
embedding uses `String`. -/
structure ServiceHealth where
  serviceId : String
  status : String
  lastCheckAt : Nat
  responseTime : Option Nat
  checks : List HealthCheck
  deriving Repr, DecidableEq

/-- The event vocabulary of the registry's `EventEmitter` (TS `RegistryEvents`). -/
inductive RegistryEvent
  | serviceRegistered (s : ServiceEndpoint)
  | serviceUnregistered (sid : String)
  | serviceHealthy (sid : String)
  | serviceUnhealthy (sid : String) (error : String)
  | connectionEstablished (c : ServiceConnection)
  | connectionLost (c : ServiceConnection)
  | discoveryUpdate (ss : List ServiceEndpoint)
  deriving Repr, DecidableEq

/-- User-supplied configuration (TS `RegistryConfig`, all fields optional). -/
structure RegistryConfig where
  discoveryEndpoint : Option String := none
  healthCheckInterval : Option Nat := none
  connectionTimeout : Option Nat := none
  maxRetries : Option Nat := none
  enableAutoDiscovery : Option Bool := none
  deriving Repr, DecidableEq

/-- The constructor-resolved configuration (TS `Required<RegistryConfig>`). -/
structure RequiredConfig where
  discoveryEndpoint : String
  healthCheckInterval : Nat
  connectionTimeout : Nat
  maxRetries : Nat
  enableAutoDiscovery : Bool
  deriving Repr, DecidableEq

/-- JS `a || b` for an optional string: `undefined` and `""` are falsy. -/
def jsOrString : Option String → String → String
  | some s, d => if s = "" then d else s
  | none, d => d

/-- JS `a || b` for an optional number: `undefined` and `0` are falsy. -/
def jsOrNat : Option Nat → Nat → Nat
  | some n, d => if n = 0 then d else n
  | none, d => d

/-- Config resolution performed by the `ServiceRegistry` constructor.
`env` models `process.env.CHITTY_REGISTRY_ENDPOINT`; `enableAutoDiscovery`
uses nullish coalescing (`??`), the others use `||`. -/
def applyConfigDefaults (env : Option String) (c : RegistryConfig) : RequiredConfig :=
  { discoveryEndpoint :=
      jsOrString c.discoveryEndpoint (jsOrString env "https://registry.chitty.cc"),
    healthCheckInterval := jsOrNat c.healthCheckInterval 30000,
    connectionTimeout := jsOrNat c.connectionTimeout 10000,
    maxRetries := jsOrNat c.maxRetries 3,
    enableAutoDiscovery := c.enableAutoDiscovery.getD true }

/-- JS `Map.get`: value of the (unique) entry with the given key. -/
def mapGet {α : Type} : List (String × α) → String → Option α
  | [], _ => none
  | (k', v) :: t, k => if k' = k then some v else mapGet t k

/-- JS `Map.set`: update an existing key in place (keeping its insertion
position) or append a fresh key at the end. -/
def mapSet {α : Type} : List (String × α) → String → α → List (String × α)
  | [], k, v => [(k, v)]
  | (k', v') :: t, k, v =>
    if k' = k then (k, v) :: t else (k', v') :: mapSet t k v

/-- JS `Map.delete`: remove the entry with the given key. -/
def mapDelete {α : Type} : List (String × α) → String → List (String × α)
  | [], _ => []
  | (k', v) :: t, k =>
    if k' = k then mapDelete t k else (k', v) :: mapDelete t k

/-- JS `Array.from(map.values())`: values in insertion order. -/
def mapValues {α : Type} (m : List (String × α)) : List α :=
  m.map (fun p => p.2)

/-- Entire mutable state owned by one `ServiceRegistry` instance:
its resolved config, the three `Map`s, the set of per-service health timers
(`healthCheckTimers.keys()`), whether the discovery interval is scheduled,
and the id-generation counter modelling `nanoid`. -/
structure RegistryState where
  config : RequiredConfig
  services : List (String × ServiceEndpoint)
  connections : List (String × ServiceConnection)
  healthStatus : List (String × ServiceHealth)
  healthCheckTimers : List String
  discoveryTimerOn : Bool
  nextId : Nat
  deriving Repr, DecidableEq

/-- State produced by the `ServiceRegistry` constructor: empty maps and, when
auto-discovery is enabled, the discovery interval scheduled (the constructor
also dispatches an initial `discoverServices`, which suspends at its fetch
and is modelled as a separate in-flight step). -/
def initialState (cfg : RequiredConfig) : RegistryState :=
  { config := cfg, services := [], connections := [], healthStatus := [],
    healthCheckTimers := [], discoveryTimerOn := cfg.enableAutoDiscovery,
    nextId := 0 }

/-- Resolved configuration of a registry constructed with no options and no
environment override. -/
def defaultRequiredConfig : RequiredConfig :=
  applyConfigDefaults none {}

/-- Counter-indexed rendering of one `nanoid` draw; injective in the counter
(distinct calls yield distinct suffixes), which is the contract the code
relies on. -/
def natSuffix (n : Nat) : String :=
  String.mk (List.replicate n 'x')

/-- Service id generation in `registerService`:
`service.name + '_' + nanoid(8)`. -/
def genId (name : String) (n : Nat) : String :=
  name ++ "_" ++ natSuffix n

/-- Connection id generation in `connectToService`: `` `conn_${nanoid()}` ``. -/
def genConnId (n : Nat) : String :=
  "conn_" ++ natSuffix n

/-- Components extracted from a URL by the runtime's `new URL`, as the
registry reads them (`protocol` without the trailing colon, `hostname`,
`port` already number-parsed, `pathname`). -/
structure URLParts where
  protocol : String
  hostname : String
  port : Option Nat
  pathname : String
  deriving Repr, DecidableEq

/-- Split a character list at the first occurrence of `c`, returning the
parts before and after it, or `none` when `c` does not occur. -/
def splitFirst (c : Char) : List Char → Option (List Char × List Char)
  | [] => none
  | x :: xs =>
    if x = c then some ([], xs)
    else (splitFirst c xs).map (fun p => (x :: p.1, p.2))

/-- Parse a decimal digit list, `none` when empty or non-numeric; models
`parseInt(url.port)` on the digit string the URL parser yields. -/
def charsToNat? : List Char → Option Nat
  | [] => none
  | cs =>
    if cs.all (fun c => c.isDigit) then
      some (cs.foldl (fun acc c => acc * 10 + (c.toNat - 48)) 0)
    else none

/-- Modelled from the runtime: `new URL(...)` restricted to the shape
`scheme://host[:port][/path...]`, which is all the registry feeds it.
Returns `none` where the constructor would throw (no scheme separator, empty
scheme or host) — `registerService` catches that case and keeps the
caller-supplied component fields. -/
def parseURL (s : String) : Option URLParts :=
  match splitFirst ':' s.data with
  | none => none
  | some (scheme, rest) =>
    match rest with
    | '/' :: '/' :: rest2 =>
      if scheme = [] then none
      else
        let hp : List Char × List Char :=
          match splitFirst '/' rest2 with
          | none => (rest2, [])
          | some (hostport, p) => (hostport, '/' :: p)
        let pathname := if hp.2 = [] then "/" else String.mk hp.2
        match splitFirst ':' hp.1 with
        | none =>
          if hp.1 = [] then none
          else some ⟨String.mk scheme, String.mk hp.1, none, pathname⟩
        | some (host, portChars) =>
          if host = [] then none
          else some ⟨String.mk scheme, String.mk host, charsToNat? portChars, pathname⟩
    | _ => none

/-- `ServiceRegistry.registerService`: mint a fresh id, best-effort parse the
URL into component fields (non-fatal on failure), store the entry, emit
`service:registered`, and start health probing (`startHealthCheck` adds the
periodic timer; its immediate first probe suspends at the network boundary
and is modelled by the `performHealthCheck` steps below). -/
def registerService (spec : ServiceSpec) (st : RegistryState) :
    ServiceEndpoint × RegistryState × List RegistryEvent :=
  let id := genId spec.name st.nextId
  let base : ServiceEndpoint :=
    { id := id, name := spec.name, type := spec.type, url := spec.url,
      protocol := spec.protocol, host := spec.host, port := spec.port,
      path := spec.path }
  let svc : ServiceEndpoint :=
    match parseURL spec.url with
    | some u =>
      { base with protocol := u.protocol, host := u.hostname, port := u.port,
                  path := if u.pathname = "/" then none else some u.pathname }
    | none => base
  (svc,
   { st with services := mapSet st.services id svc,
             healthCheckTimers :=
               if id ∈ st.healthCheckTimers then st.healthCheckTimers
               else st.healthCheckTimers ++ [id],
             nextId := st.nextId + 1 },
   [RegistryEvent.serviceRegistered svc])

/-- `ServiceRegistry.getService`: exact id (map key) match first, otherwise
the first entry in insertion order whose `name` matches. -/
def getService (st : RegistryState) (idOrName : String) : Option ServiceEndpoint :=
  match mapGet st.services idOrName with
  | some s => some s
  | none => (mapValues st.services).find? (fun s => s.name == idOrName)

/-- `ServiceRegistry.disconnectConnection`: `false` when the id is unknown;
otherwise mark the record `disconnected`, emit `connection:lost` carrying it,
remove it from the map, and return `true`. -/
def disconnectConnection (connId : String) (st : RegistryState) :
    Bool × RegistryState × List RegistryEvent :=
  match mapGet st.connections connId with
  | none => (false, st, [])
  | some c =>
    let c' := { c with status := ConnStatus.disconnected }
    (true,
     { st with connections := mapDelete st.connections connId },
     [RegistryEvent.connectionLost c'])

/-- Net effect of the `for ([connId, conn] of this.connections)` loop in
`unregisterService`, which calls `disconnectConnection connId` on every entry
bound to `sid`.  JS `Map` iteration tolerates deleting the current entry, so
the loop amounts to this single pass: matching entries are dropped (each
emitting `connection:lost` with the record marked `disconnected`, in
insertion order), the rest are kept in order. -/
def disconnectServiceConns (sid : String) :
    List (String × ServiceConnection) →
    List (String × ServiceConnection) × List RegistryEvent
  | [] => ([], [])
  | (k, c) :: t =>
    let r := disconnectServiceConns sid t
    if c.serviceId = sid then
      (r.1, RegistryEvent.connectionLost { c with status := ConnStatus.disconnected } :: r.2)
    else ((k, c) :: r.1, r.2)

/-- `ServiceRegistry.unregisterService`: `false` and no effect when the id is
unknown; otherwise stop the health timer (`stopHealthCheck`), force-disconnect
every connection bound to the id, delete the catalog entry and health record,
emit `service:unregistered`, and return `true`. -/
def unregisterService (sid : String) (st : RegistryState) :
    Bool × RegistryState × List RegistryEvent :=
  match mapGet st.services sid with
  | none => (false, st, [])
  | some _ =>
    let dc := disconnectServiceConns sid st.connections
    (true,
     { st with services := mapDelete st.services sid,
               healthStatus := mapDelete st.healthStatus sid,
               healthCheckTimers := st.healthCheckTimers.filter (fun t => t != sid),
               connections := dc.1 },
     dc.2 ++ [RegistryEvent.serviceUnregistered sid])

/-- `ServiceRegistry.getAllServices`. -/
def getAllServices (st : RegistryState) : List ServiceEndpoint :=
  mapValues st.services

/-- `ServiceRegistry.getAllConnections`. -/
def getAllConnections (st : RegistryState) : List ServiceConnection :=
  mapValues st.connections

/-- `ServiceRegistry.getHealth`. -/
def getHealth (st : RegistryState) (sid : String) : Option ServiceHealth :=
  mapGet st.healthStatus sid

/-- Outcome of the single `fetch(service.url, { method: 'HEAD', signal })`
performed by `testConnection`: an HTTP response with a status code, a network
failure carrying the thrown error's message, or the abort-controller timeout
firing first. -/
inductive FetchResult
  | response (status : Nat)
  | networkError (msg : String)
  | timeout
  deriving Repr, DecidableEq

/-- JS `Response.ok`: status in the inclusive range 200–299. -/
def jsResponseOk (s : Nat) : Bool :=
  200 ≤ s && s ≤ 299

/-- Error raised by `testConnection`, distinguished the way the code
distinguishes it: an `AbortError` is converted to the dedicated
`'Connection timeout'` error, everything else (non-2xx response, network
failure) propagates as a plain connection error with its message. -/
inductive ConnError
  | connectTimeout
  | connectError (msg : String)
  deriving Repr, DecidableEq

/-- Message carried by the thrown error (`(error as Error).message`). -/
def ConnError.message : ConnError → String
  | ConnError.connectTimeout => "Connection timeout"
  | ConnError.connectError m => m

/-- `ServiceRegistry.testConnection`: HEAD-probe the service URL; a response
fails the probe iff it is not ok (non-2xx) and its status is not 405; an
abort (timeout) becomes `'Connection timeout'`; any other fetch exception is
rethrown unchanged. -/
def testConnection (r : FetchResult) : Except ConnError Unit :=
  match r with
  | FetchResult.response s =>
    if !(jsResponseOk s) && s != 405 then
      Except.error (ConnError.connectError ("Service returned " ++ Nat.repr s))
    else Except.ok ()
  | FetchResult.networkError m => Except.error (ConnError.connectError m)
  | FetchResult.timeout => Except.error ConnError.connectTimeout

/-- Failure of a `connectToService` call: the synchronous not-found throw, or
the probe error propagated out of the try/catch. -/
inductive ConnectFailure
  | notFound (sid : String)
  | probe (e : ConnError)
  deriving Repr, DecidableEq

/-- Synchronous prefix of `ServiceRegistry.connectToService`, up to the
`await this.testConnection(service)` suspension: throw not-found when the
service id is not cataloged (leaving state untouched), otherwise create the
connection record in `connecting` state and store it. -/
def connectToService_start (sid cid : String) (st : RegistryState) :
    Except ConnectFailure ServiceConnection × RegistryState :=
  match mapGet st.services sid with
  | none => (Except.error (ConnectFailure.notFound sid), st)
  | some _ =>
    let conn : ServiceConnection :=
      { id := genConnId st.nextId, serviceId := sid, chittyId := cid,
        status := ConnStatus.connecting, establishedAt := none,
        lastPingAt := none, latency := none, error := none }
    (Except.ok conn,
     { st with connections := mapSet st.connections conn.id conn,
               nextId := st.nextId + 1 })

/-- Resumption of `connectToService` after the probe settles.  `probe` is
`Except.ok latency` when `testConnection` succeeded and the error otherwise.
Note the code writes the captured `connection` object back with
`this.connections.set(connection.id, connection)` without re-checking either
the connection map or the service catalog, so a record removed during the
suspension is re-inserted.  On success it emits `connection:established` and
returns the record; on failure it stores the terminal `error` record and
rethrows. -/
def connectToService_finish (conn : ServiceConnection) (now : Nat)
    (probe : Except ConnError Nat) (st : RegistryState) :
    Except ConnectFailure ServiceConnection × RegistryState × List RegistryEvent :=
  match probe with
  | Except.ok lat =>
    let c := { conn with status := ConnStatus.connected,
                         establishedAt := some now, latency := some lat }
    (Except.ok c,
     { st with connections := mapSet st.connections c.id c },
     [RegistryEvent.connectionEstablished c])
  | Except.error e =>
    let c := { conn with status := ConnStatus.error, error := some e.message }
    (Except.error (ConnectFailure.probe e),
     { st with connections := mapSet st.connections c.id c },
     [])

/-- A full `connectToService` call with no interleaved mutation between
suspension and resumption: start, probe via `testConnection`, finish.
`fetch` is the network outcome, `now` the resume-time clock read, `lat` the
measured latency. -/
def connectToService (sid cid : String) (fetch : FetchResult) (now lat : Nat)
    (st : RegistryState) :
    Except ConnectFailure ServiceConnection × RegistryState × List RegistryEvent :=
  match connectToService_start sid cid st with
  | (Except.error e, st') => (Except.error e, st', [])
  | (Except.ok conn, st') =>
    match testConnection fetch with
    | Except.ok _ => connectToService_finish conn now (Except.ok lat) st'
    | Except.error e => connectToService_finish conn now (Except.error e) st'

/-- Application-level `/health` payload as the code duck-types it
(`healthData.status`, `healthData.checks` on a value typed `any`): either
field may be absent. -/
structure HealthPayload where
  status : Option String
  checks : Option (List HealthCheck)
  deriving Repr, DecidableEq

/-- JS truthiness of `healthData.status` as an optional string:
`undefined` and `""` are falsy. -/
def jsTruthyStr : Option String → Bool
  | some s => s != ""
  | none => false

/-- Network outcome of one health probe cycle: either the basic connectivity
check succeeded with a measured response time — with `healthFetch` carrying
the parsed `/health` payload when that optional fetch returned ok and parsed,
`none` when it failed in any way (ignored by the code) — or the basic check
threw, with the error's message. -/
inductive ProbeOutcome
  | success (responseTime : Nat) (healthFetch : Option HealthPayload)
  | failure (msg : String)
  deriving Repr, DecidableEq

/-- The `connectivity: pass` check pushed on a successful basic probe. -/
def connectivityPass (rt : Nat) : HealthCheck :=
  { name := "connectivity", status := CheckStatus.pass,
    message := some ("Response time: " ++ Nat.repr rt ++ "ms") }

/-- Health record computed by `performHealthCheck` for one cycle: on success
the basic classification (`responseTime < 1000` ⇒ healthy, else degraded)
with a `connectivity: pass` check, then — when a well-formed `/health`
payload arrived — `status` overwritten by the payload's truthy `status` and
the payload's `checks` pushed (appended) after the connectivity check; on
failure an `unhealthy` record with a single `connectivity: fail` check. -/
def computeHealth (sid : String) (now : Nat) : ProbeOutcome → ServiceHealth
  | ProbeOutcome.success rt payload =>
    let baseStatus := if rt < 1000 then "healthy" else "degraded"
    let status :=
      match payload with
      | some p => if jsTruthyStr p.status then p.status.getD baseStatus else baseStatus
      | none => baseStatus
    let extra :=
      match payload with
      | some p => p.checks.getD []
      | none => []
    { serviceId := sid, status := status, lastCheckAt := now,
      responseTime := some rt, checks := connectivityPass rt :: extra }
  | ProbeOutcome.failure msg =>
    { serviceId := sid, status := "unhealthy", lastCheckAt := now,
      responseTime := none,
      checks := [{ name := "connectivity", status := CheckStatus.fail,
                   message := some msg }] }

/-- Events emitted at the end of one health probe cycle: on the success path
`service:healthy` iff the final status is `healthy`, `service:unhealthy`
with reason `'Health check failed'` iff it is `unhealthy`, nothing otherwise;
on the exception path always `service:unhealthy` with the error message. -/
def healthCycleEvents (sid : String) (oc : ProbeOutcome) (h : ServiceHealth) :
    List RegistryEvent :=
  match oc with
  | ProbeOutcome.success _ _ =>
    if h.status = "healthy" then [RegistryEvent.serviceHealthy sid]
    else if h.status = "unhealthy" then
      [RegistryEvent.serviceUnhealthy sid "Health check failed"]
    else []
  | ProbeOutcome.failure msg => [RegistryEvent.serviceUnhealthy sid msg]

/-- Guard at the top of `ServiceRegistry.performHealthCheck`, evaluated
before the suspension: the cycle proceeds only when the service is (still)
cataloged at dispatch time. -/
def performHealthCheck_start (st : RegistryState) (sid : String) : Bool :=
  (mapGet st.services sid).isSome

/-- Resumption of `performHealthCheck` once the probe outcome is available:
store the computed record with `healthStatus.set(serviceId, health)` — with
no re-check that the service is still cataloged — and emit the cycle's
events. -/
def performHealthCheck_finish (sid : String) (now : Nat) (oc : ProbeOutcome)
    (st : RegistryState) : RegistryState × List RegistryEvent :=
  let h := computeHealth sid now oc
  ({ st with healthStatus := mapSet st.healthStatus sid h },
   healthCycleEvents sid oc h)

/-- A full `performHealthCheck` cycle with no interleaved mutation:
the early-return guard, then the resumption. -/
def performHealthCheck (sid : String) (now : Nat) (oc : ProbeOutcome)
    (st : RegistryState) : RegistryState × List RegistryEvent :=
  if performHealthCheck_start st sid then performHealthCheck_finish sid now oc st
  else (st, [])

/-- Body of the `for (const service of services)` loop in
`discoverServices`: register each fetched entry whose id `getService` cannot
resolve, skip the rest. -/
def registerDiscovered (fetched : List ServiceEndpoint) (st : RegistryState)
    (evs : List RegistryEvent) : RegistryState × List RegistryEvent :=
  match fetched with
  | [] => (st, evs)
  | e :: rest =>
    if (getService st e.id).isSome then registerDiscovered rest st evs
    else
      let r := registerService (specOf e) st
      registerDiscovered rest r.2.1 (evs ++ r.2.2)

/-- One successful `discoverServices` fetch applied to the state: register
the unknown entries, then emit `discovery:update` with the full fetched list.
A failed fetch (network error or non-ok response) leaves the state untouched
and emits nothing. -/
def discoverServices_apply (fetched : List ServiceEndpoint) (st : RegistryState) :
    RegistryState × List RegistryEvent :=
  let r := registerDiscovered fetched st []
  (r.1, r.2 ++ [RegistryEvent.discoveryUpdate fetched])

/-- `ServiceRegistry.getStats`. `totalServices`/`totalConnections` read
`Map.size`, which in this embedding is the list length. -/
structure RegistryStats where
  totalServices : Nat
  healthyServices : Nat
  unhealthyServices : Nat
  totalConnections : Nat
  activeConnections : Nat
  deriving Repr, DecidableEq

/-- `ServiceRegistry.getStats`: sizes of the two maps plus counts of healthy
and unhealthy health records and of `connected` connections. -/
def getStats (st : RegistryState) : RegistryStats :=
  { totalServices := st.services.length,
    healthyServices :=
      ((mapValues st.healthStatus).filter (fun h => h.status == "healthy")).length,
    unhealthyServices :=
      ((mapValues st.healthStatus).filter (fun h => h.status == "unhealthy")).length,
    totalConnections := st.connections.length,
    activeConnections :=
      ((mapValues st.connections).filter
        (fun c => c.status == ConnStatus.connected)).length }

/-- `ServiceRegistry.shutdown`: stop every health timer and the discovery
timer, clear all three maps. -/
def shutdown (st : RegistryState) : RegistryState :=
  { st with services := [], connections := [], healthStatus := [],
            healthCheckTimers := [], discoveryTimerOn := false }

/-- One atomic execution segment of the cooperative model (§5): every
registry mutation happens inside one of these, and suspended operations are
represented by their explicit resumption segments (`connectFinish`,
`healthFinish` carry the data captured before the suspension). -/
inductive RegistryOp
  | register (spec : ServiceSpec)
  | unregister (sid : String)
  | connectStart (sid cid : String)
  | connectFinish (conn : ServiceConnection) (now : Nat) (probe : Except ConnError Nat)
  | disconnect (connId : String)
  | healthFinish (sid : String) (now : Nat) (oc : ProbeOutcome)
  | discover (fetched : List ServiceEndpoint)
  | shutdownOp
  deriving Repr

/-- State transition of one atomic segment (event log and return values
projected away). -/
def applyOp (st : RegistryState) : RegistryOp → RegistryState
  | RegistryOp.register spec => (registerService spec st).2.1
  | RegistryOp.unregister sid => (unregisterService sid st).2.1
  | RegistryOp.connectStart sid cid => (connectToService_start sid cid st).2
  | RegistryOp.connectFinish conn now probe =>
    (connectToService_finish conn now probe st).2.1
  | RegistryOp.disconnect connId => (disconnectConnection connId st).2.1
  | RegistryOp.healthFinish sid now oc => (performHealthCheck_finish sid now oc st).1
  | RegistryOp.discover fetched => (discoverServices_apply fetched st).1
  | RegistryOp.shutdownOp => shutdown st

/-- Run a sequence of atomic segments from a state. -/
def runOps (st : RegistryState) (ops : List RegistryOp) : RegistryState :=
  ops.foldl applyOp st

/-- Module-level singleton accessor `getRegistry(config?)`: `inst` models the
`registryInstance` variable.  The constructor resolves the config (with the
environment fallback) and, when auto-discovery is enabled, schedules the
discovery interval; a later call returns the existing instance without
reading its argument. -/
def getRegistry (env : Option String) (cfg : Option RegistryConfig)
    (inst : Option RegistryState) : RegistryState × Option RegistryState :=
  match inst with
  | some r => (r, some r)
  | none =>
    let r := initialState (applyConfigDefaults env (cfg.getD {}))
    (r, some r)

/-! Helper lemmas about the JS `Map` model and id generation. -/

theorem mapGet_mapSet_self {α : Type} (m : List (String × α)) (k : String) (v : α) :
    mapGet (mapSet m k v) k = some v := by
  induction m with
  | nil => simp [mapSet, mapGet]
  | cons p t ih =>
    obtain ⟨k', v'⟩ := p
    by_cases h : k' = k
    · simp [mapSet, mapGet, h]
    · simp [mapSet, mapGet, h, ih]

theorem mapGet_mapDelete_self {α : Type} (m : List (String × α)) (k : String) :
    mapGet (mapDelete m k) k = none := by
  induction m with
  | nil => simp [mapDelete, mapGet]
  | cons p t ih =>
    obtain ⟨k', v'⟩ := p
    by_cases hk : k' = k
    · simp [mapDelete, hk, ih]
    · simp [mapDelete, mapGet, hk, ih]

theorem mapGet_mapDelete_ne {α : Type} (m : List (String × α)) (k x : String)
    (hx : x ≠ k) : mapGet (mapDelete m k) x = mapGet m x := by
  induction m with
  | nil => simp [mapDelete]
  | cons p t ih =>
    obtain ⟨k', v'⟩ := p
    by_cases hk : k' = k
    · subst hk
      have hne : k' ≠ x := fun h => hx h.symm
      simp [mapDelete, mapGet, hne, ih]
    · simp [mapDelete, mapGet, hk, ih]

theorem mapGet_mapDelete {α : Type} (m : List (String × α)) (k x : String) :
    mapGet (mapDelete m k) x = if x = k then none else mapGet m x := by
  by_cases h : x = k
  · subst h
    simp [mapGet_mapDelete_self]
  · simp [h, mapGet_mapDelete_ne m k x h]

theorem mapSet_fresh {α : Type} (m : List (String × α)) (k : String) (v : α)
    (h : mapGet m k = none) : mapSet m k v = m ++ [(k, v)] := by
  induction m with
  | nil => simp [mapSet]
  | cons p t ih =>
    obtain ⟨k', v'⟩ := p
    by_cases hk : k' = k
    · simp [mapGet, hk] at h
    · simp [mapGet, hk] at h
      simp [mapSet, hk, ih h]

theorem mapGet_append {α : Type} (m₁ m₂ : List (String × α)) (k : String) :
    mapGet (m₁ ++ m₂) k =
      match mapGet m₁ k with
      | some v => some v
      | none => mapGet m₂ k := by
  induction m₁ with
  | nil => simp [mapGet]
  | cons p t ih =>
    obtain ⟨k', v'⟩ := p
    by_cases hk : k' = k
    · simp [mapGet, hk]
    · simp [mapGet, hk, ih]

theorem string_length_data (s : String) : s.length = s.data.length := by
  obtain ⟨d⟩ := s
  rfl

theorem string_data_append (a b : String) : (a ++ b).data = a.data ++ b.data := by
  obtain ⟨da⟩ := a
  obtain ⟨db⟩ := b
  rfl

theorem string_length_append (a b : String) : (a ++ b).length = a.length + b.length := by
  rw [string_length_data, string_length_data, string_length_data, string_data_append]
  exact List.length_append _ _

theorem natSuffix_length (n : Nat) : (natSuffix n).length = n := by
  have h : (natSuffix n).data = List.replicate n 'x' := rfl
  rw [string_length_data, h]
  simp

theorem genId_length (name : String) (n : Nat) :
    (genId name n).length = name.length + 1 + n := by
  have h1 : "_".length = 1 := rfl
  rw [genId, string_length_append, string_length_append, h1, natSuffix_length]

theorem genId_ne_name (name other : String) (n : Nat)
    (hlen : other.length ≤ name.length) : genId name n ≠ other := by
  intro h
  have := genId_length name n
  rw [h] at this
  omega

theorem genId_inj_right (name : String) (m n : Nat)
    (h : genId name m = genId name n) : m = n := by
  have hm := genId_length name m
  have hn := genId_length name n
  rw [h] at hm
  omega

theorem disconnectServiceConns_eq (sid : String)
    (l : List (String × ServiceConnection)) :
    disconnectServiceConns sid l =
      (l.filter (fun p => p.2.serviceId != sid),
       (l.filter (fun p => p.2.serviceId == sid)).map
         (fun p => RegistryEvent.connectionLost
           { p.2 with status := ConnStatus.disconnected })) := by
  induction l with
  | nil => simp [disconnectServiceConns]
  | cons p t ih =>
    obtain ⟨k, c⟩ := p
    by_cases h : c.serviceId = sid
    · have hb : (c.serviceId == sid) = true := by simp [h]
      simp [disconnectServiceConns, h, ih, List.filter_cons, hb]
    · have hb : (c.serviceId == sid) = false := by simp [h]
      simp [disconnectServiceConns, h, ih, List.filter_cons, hb]

theorem registerService_id (spec : ServiceSpec) (st : RegistryState) :
    (registerService spec st).1.id = genId spec.name st.nextId := by
  cases hp : parseURL spec.url <;> simp [registerService, hp]

theorem registerService_name (spec : ServiceSpec) (st : RegistryState) :
    (registerService spec st).1.name = spec.name := by
  cases hp : parseURL spec.url <;> simp [registerService, hp]

theorem registerService_services (spec : ServiceSpec) (st : RegistryState) :
    (registerService spec st).2.1.services =
      mapSet st.services (genId spec.name st.nextId) (registerService spec st).1 := by
  cases hp : parseURL spec.url <;> simp [registerService, hp]

theorem registerService_nextId (spec : ServiceSpec) (st : RegistryState) :
    (registerService spec st).2.1.nextId = st.nextId + 1 := by
  cases hp : parseURL spec.url <;> simp [registerService, hp]

/-! Claim theorems. -/

/-- C9: at every point in any sequence of registry operations,
`getStats().totalServices` equals `getAllServices().length` and
`getStats().totalConnections` equals `getAllConnections().length` —
`Map.size` and the length of the materialized values array cannot drift. -/
theorem c9_stats_consistent (cfg : RequiredConfig) (ops : List RegistryOp) :
    (getStats (runOps (initialState cfg) ops)).totalServices =
      (getAllServices (runOps (initialState cfg) ops)).length ∧
    (getStats (runOps (initialState cfg) ops)).totalConnections =
      (getAllConnections (runOps (initialState cfg) ops)).length := by
  constructor <;> simp [getStats, getAllServices, getAllConnections, mapValues]

/-- C10: `getRegistry(config)` applies the supplied configuration only on the
first call; a later call returns the same singleton and ignores its config
argument, so `getRegistry(c1)` then `getRegistry(c2)` yields the registry
configured from `c1`. -/
theorem c10_singleton_config (env : Option String) (c1 c2 : RegistryConfig) :
    (getRegistry env (some c1) none).1.config = applyConfigDefaults env c1 ∧
    (getRegistry env (some c2) (getRegistry env (some c1) none).2).1 =
      (getRegistry env (some c1) none).1 ∧
    (getRegistry env (some c2) (getRegistry env (some c1) none).2).2 =
      (getRegistry env (some c1) none).2 := by
  exact ⟨rfl, rfl, rfl⟩

/-- C6: `connectToService` on a serviceId that is not cataloged fails with
the not-found error, leaves the state (in particular `getAllConnections()`)
unchanged, and emits nothing. -/
theorem c6_connect_unknown_notFound (sid cid : String) (fetch : FetchResult)
    (now lat : Nat) (st : RegistryState) (h : mapGet st.services sid = none) :
    (connectToService sid cid fetch now lat st).1 =
      Except.error (ConnectFailure.notFound sid) ∧
    (connectToService sid cid fetch now lat st).2.1 = st ∧
    getAllConnections (connectToService sid cid fetch now lat st).2.1 =
      getAllConnections st ∧
    (connectToService sid cid fetch now lat st).2.2 = [] := by
  simp [connectToService, connectToService_start, h]

/-- Witness for C6 at a concrete input: an empty registry and an unknown id. -/
theorem c6_connect_unknown_notFound_witness :
    (connectToService "ghost" "client" FetchResult.timeout 0 0
        (initialState defaultRequiredConfig)).1 =
      Except.error (ConnectFailure.notFound "ghost") ∧
    (connectToService "ghost" "client" FetchResult.timeout 0 0
        (initialState defaultRequiredConfig)).2.1 =
      initialState defaultRequiredConfig ∧
    getAllConnections (connectToService "ghost" "client" FetchResult.timeout 0 0
        (initialState defaultRequiredConfig)).2.1 =
      getAllConnections (initialState defaultRequiredConfig) ∧
    (connectToService "ghost" "client" FetchResult.timeout 0 0
        (initialState defaultRequiredConfig)).2.2 = [] :=
  c6_connect_unknown_notFound "ghost" "client" FetchResult.timeout 0 0
    (initialState defaultRequiredConfig) rfl

/-- C4 (amended): a probe timeout raises the distinguishable timeout error
and a network failure raises the generic connect error with its message; a
non-2xx response other than 405 raises the generic connect error; but a 405
response is treated as a successful probe, so not every non-2xx status fails
the connect. -/
theorem c4_error_taxonomy (s : Nat) (msg : String)
    (hbad : jsResponseOk s = false) (h405 : s ≠ 405) :
    testConnection FetchResult.timeout = Except.error ConnError.connectTimeout ∧
    testConnection (FetchResult.networkError msg) =
      Except.error (ConnError.connectError msg) ∧
    testConnection (FetchResult.response s) =
      Except.error (ConnError.connectError ("Service returned " ++ Nat.repr s)) ∧
    testConnection (FetchResult.response 405) = Except.ok () := by
  refine ⟨rfl, rfl, ?_, rfl⟩
  have hb : (s != 405) = true := by simp [h405]
  simp [testConnection, hbad, hb]

/-- Witness for C4 at a concrete input: a 500 response fails with the
connect-error kind while a timeout fails with the timeout kind. -/
theorem c4_error_taxonomy_witness :
    testConnection FetchResult.timeout = Except.error ConnError.connectTimeout ∧
    testConnection (FetchResult.networkError "connection refused") =
      Except.error (ConnError.connectError "connection refused") ∧
    testConnection (FetchResult.response 500) =
      Except.error (ConnError.connectError ("Service returned " ++ Nat.repr 500)) ∧
    testConnection (FetchResult.response 405) = Except.ok () :=
  c4_error_taxonomy 500 "connection refused" rfl (by decide)

/-- Registry holding one service `svc` (id `svc_`) registered into a fresh
default-configured registry; used by the C4 counterexample. -/
def c4_state : RegistryState :=
  (registerService ⟨"svc", "api", "http://a.io", "", "", none, none⟩
    (initialState defaultRequiredConfig)).2.1

/-- C4 counterexample: 405 is not a 2xx status, yet a `connectToService`
whose probe receives a 405 response succeeds and records a `connected`
connection, refuting the claim that every non-2xx response status causes the
connect to fail. -/
theorem c4_counterexample :
    jsResponseOk 405 = false ∧
    (connectToService "svc_" "client" (FetchResult.response 405) 10 5 c4_state).1 =
      Except.ok { id := "conn_x", serviceId := "svc_", chittyId := "client",
                  status := ConnStatus.connected, establishedAt := some 10,
                  lastPingAt := none, latency := some 5, error := none } := by
  exact ⟨rfl, rfl⟩

/-- C3 (amended): when the optional `/health` fetch returns a well-formed
payload, the resulting record's `status` is replaced by the payload's status,
but the payload's `checks` are appended after the basic `connectivity` check
(a union, not a replacement); when the `/health` fetch fails, the basic
result stands unchanged. -/
theorem c3_health_merge (sid : String) (now rt : Nat) (s : String)
    (cs : List HealthCheck) (st : RegistryState) (hs : s ≠ "") :
    (computeHealth sid now (ProbeOutcome.success rt (some ⟨some s, some cs⟩))).status = s ∧
    (computeHealth sid now (ProbeOutcome.success rt (some ⟨some s, some cs⟩))).checks =
      connectivityPass rt :: cs ∧
    mapGet (performHealthCheck_finish sid now
        (ProbeOutcome.success rt (some ⟨some s, some cs⟩)) st).1.healthStatus sid =
      some (computeHealth sid now (ProbeOutcome.success rt (some ⟨some s, some cs⟩))) ∧
    computeHealth sid now (ProbeOutcome.success rt none) =
      { serviceId := sid, status := if rt < 1000 then "healthy" else "degraded",
        lastCheckAt := now, responseTime := some rt,
        checks := [connectivityPass rt] } := by
  have hb : jsTruthyStr (some s) = true := by simp [jsTruthyStr, hs]
  refine ⟨?_, ?_, ?_, ?_⟩
  · simp [computeHealth, hb]
  · simp [computeHealth]
  · simp [performHealthCheck_finish, mapGet_mapSet_self]
  · simp [computeHealth]

/-- Witness for C3 at a concrete input: payload status `degraded` with one
`db` check, on an empty registry. -/
theorem c3_health_merge_witness :
    (computeHealth "svc_" 7 (ProbeOutcome.success 100
        (some ⟨some "degraded", some [⟨"db", CheckStatus.pass, none⟩]⟩))).status =
      "degraded" ∧
    (computeHealth "svc_" 7 (ProbeOutcome.success 100
        (some ⟨some "degraded", some [⟨"db", CheckStatus.pass, none⟩]⟩))).checks =
      connectivityPass 100 :: [⟨"db", CheckStatus.pass, none⟩] ∧
    mapGet (performHealthCheck_finish "svc_" 7
        (ProbeOutcome.success 100 (some ⟨some "degraded", some [⟨"db", CheckStatus.pass, none⟩]⟩))
        (initialState defaultRequiredConfig)).1.healthStatus "svc_" =
      some (computeHealth "svc_" 7 (ProbeOutcome.success 100
        (some ⟨some "degraded", some [⟨"db", CheckStatus.pass, none⟩]⟩))) ∧
    computeHealth "svc_" 7 (ProbeOutcome.success 100 none) =
      { serviceId := "svc_", status := if 100 < 1000 then "healthy" else "degraded",
        lastCheckAt := 7, responseTime := some 100,
        checks := [connectivityPass 100] } :=
  c3_health_merge "svc_" 7 100 "degraded" [⟨"db", CheckStatus.pass, none⟩]
    (initialState defaultRequiredConfig) (by decide)

/-- C3 counterexample: with a well-formed payload carrying exactly one remote
check, the stored record's `checks` are not equal to the payload's checks —
the basic connectivity result is kept in front of them — refuting the
claim's "checks equal that payload's checks / replaced, not unioned". -/
theorem c3_counterexample :
    (computeHealth "svc_" 7 (ProbeOutcome.success 100
        (some ⟨some "degraded", some [⟨"db", CheckStatus.pass, none⟩]⟩))).checks ≠
      [⟨"db", CheckStatus.pass, none⟩] ∧
    (computeHealth "svc_" 7 (ProbeOutcome.success 100
        (some ⟨some "degraded", some [⟨"db", CheckStatus.pass, none⟩]⟩))).checks =
      [connectivityPass 100, ⟨"db", CheckStatus.pass, none⟩] := by
  exact ⟨by decide, rfl⟩

/-- C8: one probe cycle stores the computed record and emits
`service:healthy` exactly when that record's status is `healthy`,
`service:unhealthy` (for some reason string) exactly when it is `unhealthy`,
and nothing at all when it is `degraded`. -/
theorem c8_health_events (sid : String) (now : Nat) (oc : ProbeOutcome)
    (st : RegistryState) :
    mapGet (performHealthCheck_finish sid now oc st).1.healthStatus sid =
      some (computeHealth sid now oc) ∧
    (RegistryEvent.serviceHealthy sid ∈ (performHealthCheck_finish sid now oc st).2 ↔
      (computeHealth sid now oc).status = "healthy") ∧
    ((∃ m, RegistryEvent.serviceUnhealthy sid m ∈
        (performHealthCheck_finish sid now oc st).2) ↔
      (computeHealth sid now oc).status = "unhealthy") ∧
    ((computeHealth sid now oc).status = "degraded" →
      (performHealthCheck_finish sid now oc st).2 = []) := by
  refine ⟨by simp [performHealthCheck_finish, mapGet_mapSet_self], ?_, ?_, ?_⟩ <;>
    cases oc with
    | success rt payload =>
      by_cases h1 : (computeHealth sid now (ProbeOutcome.success rt payload)).status = "healthy"
      · simp [performHealthCheck_finish, healthCycleEvents, h1]
      · by_cases h2 :
          (computeHealth sid now (ProbeOutcome.success rt payload)).status = "unhealthy" <;>
          simp [performHealthCheck_finish, healthCycleEvents, h1, h2]
    | failure msg =>
      simp [performHealthCheck_finish, healthCycleEvents, computeHealth]

/-- Witness for C8 at a concrete input: a slow (1500 ms) basic probe with no
`/health` payload classifies the cycle `degraded` and emits no event. -/
theorem c8_health_events_witness :
    mapGet (performHealthCheck_finish "svc_" 3 (ProbeOutcome.success 1500 none)
        (initialState defaultRequiredConfig)).1.healthStatus "svc_" =
      some (computeHealth "svc_" 3 (ProbeOutcome.success 1500 none)) ∧
    (RegistryEvent.serviceHealthy "svc_" ∈
        (performHealthCheck_finish "svc_" 3 (ProbeOutcome.success 1500 none)
          (initialState defaultRequiredConfig)).2 ↔
      (computeHealth "svc_" 3 (ProbeOutcome.success 1500 none)).status = "healthy") ∧
    ((∃ m, RegistryEvent.serviceUnhealthy "svc_" m ∈
        (performHealthCheck_finish "svc_" 3 (ProbeOutcome.success 1500 none)
          (initialState defaultRequiredConfig)).2) ↔
      (computeHealth "svc_" 3 (ProbeOutcome.success 1500 none)).status = "unhealthy") ∧
    ((computeHealth "svc_" 3 (ProbeOutcome.success 1500 none)).status = "degraded" →
      (performHealthCheck_finish "svc_" 3 (ProbeOutcome.success 1500 none)
        (initialState defaultRequiredConfig)).2 = []) :=
  c8_health_events "svc_" 3 (ProbeOutcome.success 1500 none)
    (initialState defaultRequiredConfig)

/-- C1 (amended): neither resumption re-validates that the target service
still exists — even when the service id is absent from the catalog,
`connectToService`'s resumption writes the `connected`/`error` record back
into the connection map (re-creating it if unregistration removed it), and
`performHealthCheck`'s resumption writes a health record for the missing
service. -/
theorem c1_no_revalidation_on_resume (conn : ServiceConnection) (now now2 lat : Nat)
    (st st2 : RegistryState) (sid : String) (oc : ProbeOutcome) (e : ConnError)
    (_hgone : mapGet st.services conn.serviceId = none)
    (_hgone2 : mapGet st2.services sid = none) :
    mapGet (connectToService_finish conn now (Except.ok lat) st).2.1.connections conn.id =
      some { conn with status := ConnStatus.connected, establishedAt := some now,
                       latency := some lat } ∧
    mapGet (connectToService_finish conn now (Except.error e) st).2.1.connections conn.id =
      some { conn with status := ConnStatus.error, error := some e.message } ∧
    mapGet (performHealthCheck_finish sid now2 oc st2).1.healthStatus sid =
      some (computeHealth sid now2 oc) := by
  refine ⟨?_, ?_, ?_⟩
  · simp [connectToService_finish, mapGet_mapSet_self]
  · simp [connectToService_finish, mapGet_mapSet_self]
  · simp [performHealthCheck_finish, mapGet_mapSet_self]

/-- Connection record captured by the in-flight `connectToService` of the C1
trace (created with counter value 1, hence id `conn_x`). -/
def c1_conn : ServiceConnection :=
  { id := "conn_x", serviceId := "svc_", chittyId := "client",
    status := ConnStatus.connecting, establishedAt := none, lastPingAt := none,
    latency := none, error := none }

/-- Witness for C1's amended statement: both resumptions write their results
into an empty registry, where the target service does not exist. -/
theorem c1_no_revalidation_on_resume_witness :
    mapGet (connectToService_finish c1_conn 100 (Except.ok 5)
        (initialState defaultRequiredConfig)).2.1.connections c1_conn.id =
      some { c1_conn with status := ConnStatus.connected, establishedAt := some 100,
                          latency := some 5 } ∧
    mapGet (connectToService_finish c1_conn 100 (Except.error ConnError.connectTimeout)
        (initialState defaultRequiredConfig)).2.1.connections c1_conn.id =
      some { c1_conn with status := ConnStatus.error,
                          error := some ConnError.connectTimeout.message } ∧
    mapGet (performHealthCheck_finish "svc_" 200 (ProbeOutcome.success 50 none)
        (initialState defaultRequiredConfig)).1.healthStatus "svc_" =
      some (computeHealth "svc_" 200 (ProbeOutcome.success 50 none)) :=
  c1_no_revalidation_on_resume c1_conn 100 200 5 (initialState defaultRequiredConfig)
    (initialState defaultRequiredConfig) "svc_" (ProbeOutcome.success 50 none)
    ConnError.connectTimeout rfl rfl

/-- Registry of the C1 trace after registering service `svc` (id `svc_`). -/
def c1_st1 : RegistryState :=
  (registerService ⟨"svc", "api", "http://a.io", "", "", none, none⟩
    (initialState defaultRequiredConfig)).2.1

/-- C1 trace after the connect's synchronous prefix ran (record `conn_x`
stored in `connecting` state, probe in flight). -/
def c1_st2 : RegistryState := (connectToService_start "svc_" "client" c1_st1).2

/-- C1 trace after `unregisterService "svc_"` ran during the suspension. -/
def c1_st3 : RegistryState := (unregisterService "svc_" c1_st2).2.1

/-- C1 trace after the in-flight connect resumed with a successful probe. -/
def c1_st4 : RegistryState :=
  (connectToService_finish c1_conn 100 (Except.ok 5) c1_st3).2.1

/-- C1 trace after an in-flight health probe (dispatched before the
unregistration) resumed with a successful outcome. -/
def c1_st5 : RegistryState :=
  (performHealthCheck_finish "svc_" 200 (ProbeOutcome.success 50 none) c1_st4).1

/-- C1 counterexample: in a concrete interleaving — register, suspend a
connect and a health probe, unregister during the suspension — the connect
resumption re-creates a `connected` connection record for the deleted
service and the health resumption stores a health record for it, refuting
the claim that results are discarded when the service is gone. -/
theorem c1_counterexample :
    (connectToService_start "svc_" "client" c1_st1).1 = Except.ok c1_conn ∧
    performHealthCheck_start c1_st2 "svc_" = true ∧
    mapGet c1_st3.services "svc_" = none ∧
    mapGet c1_st3.connections "conn_x" = none ∧
    mapGet c1_st4.connections "conn_x" =
      some { c1_conn with status := ConnStatus.connected, establishedAt := some 100,
                          latency := some 5 } ∧
    mapGet c1_st5.services "svc_" = none ∧
    mapGet c1_st5.healthStatus "svc_" =
      some (computeHealth "svc_" 200 (ProbeOutcome.success 50 none)) := by
  exact ⟨rfl, rfl, rfl, rfl, rfl, rfl, rfl⟩

/-- Directory entry returned by the discovery endpoint in the C2 trace; its
`id` differs from its `name`, as the directory's ids generally do from the
locally minted `name + '_' + nanoid` ids. -/
def c2_entry : ServiceEndpoint :=
  { id := "svc-1", name := "alpha", type := "api", url := "http://a.io",
    protocol := "http", host := "a.io", port := none, path := none }

/-- Catalog after the first discovery cycle fetched `[c2_entry]`. -/
def c2_st1 : RegistryState :=
  (discoverServices_apply [c2_entry] (initialState defaultRequiredConfig)).1

/-- Catalog after a second discovery cycle fetched the same list. -/
def c2_st2 : RegistryState := (discoverServices_apply [c2_entry] c2_st1).1

/-- C2: the first discovery cycle registers the unknown entry, but because
`registerService` mints a fresh id (discarding the directory id `svc-1`),
the dedup guard `getService(service.id)` still resolves nothing afterwards,
and the second cycle registering the identical directory list adds a second
catalog entry for the same service — the claim's "second cycle adds no new
catalog entries" fails. -/
theorem c2_discovery_duplicates :
    (getAllServices c2_st1).length = 1 ∧
    getService c2_st1 "svc-1" = none ∧
    (getAllServices c2_st2).length = 2 ∧
    ∀ e ∈ getAllServices c2_st2, e.name = "alpha" ∧ e.url = "http://a.io" := by
  refine ⟨rfl, rfl, rfl, ?_⟩
  decide

/-- C7: `unregisterService` on an unknown id returns `false` with no state
change and no events; on a known id it returns `true`, removes exactly that
catalog entry and exactly that health record, stops its health timer, drops
exactly the connections bound to the id, and emits `connection:lost` for each
dropped connection (in insertion order, carrying the record marked
`disconnected`) followed by `service:unregistered`. -/
theorem c7_unregister (sid : String) (st : RegistryState) :
    (mapGet st.services sid = none → unregisterService sid st = (false, st, [])) ∧
    ((mapGet st.services sid).isSome →
      (unregisterService sid st).1 = true ∧
      (∀ x, mapGet (unregisterService sid st).2.1.services x =
        if x = sid then none else mapGet st.services x) ∧
      (∀ x, mapGet (unregisterService sid st).2.1.healthStatus x =
        if x = sid then none else mapGet st.healthStatus x) ∧
      sid ∉ (unregisterService sid st).2.1.healthCheckTimers ∧
      (unregisterService sid st).2.1.connections =
        st.connections.filter (fun p => p.2.serviceId != sid) ∧
      (unregisterService sid st).2.2 =
        (st.connections.filter (fun p => p.2.serviceId == sid)).map
          (fun p => RegistryEvent.connectionLost
            { p.2 with status := ConnStatus.disconnected }) ++
        [RegistryEvent.serviceUnregistered sid]) := by
  constructor
  · intro h
    simp [unregisterService, h]
  · intro h
    obtain ⟨s, hs⟩ := Option.isSome_iff_exists.mp h
    refine ⟨?_, ?_, ?_, ?_, ?_, ?_⟩
    · simp [unregisterService, hs]
    · intro x
      simp [unregisterService, hs, mapGet_mapDelete]
    · intro x
      simp [unregisterService, hs, mapGet_mapDelete]
    · simp [unregisterService, hs, List.mem_filter]
    · simp [unregisterService, hs, disconnectServiceConns_eq]
    · simp [unregisterService, hs, disconnectServiceConns_eq]

/-- Registry used by the C7 witness: one service `svc` (id `svc_`) with a
health record written by its first probe, one connection `conn_x` bound to
it, and one connection `conn_xx` bound to an unrelated id. -/
def c7_state : RegistryState :=
  { c1_st2 with
    healthStatus := [("svc_", computeHealth "svc_" 1 (ProbeOutcome.success 10 none))],
    connections := c1_st2.connections ++
      [("conn_xx", { id := "conn_xx", serviceId := "other", chittyId := "client2",
                     status := ConnStatus.connected, establishedAt := some 2,
                     lastPingAt := none, latency := some 1, error := none })] }

/-- Witness for C7 at concrete inputs: the unknown-id branch on an empty
registry and the known-id branch on `c7_state`. -/
theorem c7_unregister_witness :
    unregisterService "ghost" (initialState defaultRequiredConfig) =
      (false, initialState defaultRequiredConfig, []) ∧
    ((unregisterService "svc_" c7_state).1 = true ∧
      (∀ x, mapGet (unregisterService "svc_" c7_state).2.1.services x =
        if x = "svc_" then none else mapGet c7_state.services x) ∧
      (∀ x, mapGet (unregisterService "svc_" c7_state).2.1.healthStatus x =
        if x = "svc_" then none else mapGet c7_state.healthStatus x) ∧
      "svc_" ∉ (unregisterService "svc_" c7_state).2.1.healthCheckTimers ∧
      (unregisterService "svc_" c7_state).2.1.connections =
        c7_state.connections.filter (fun p => p.2.serviceId != "svc_") ∧
      (unregisterService "svc_" c7_state).2.2 =
        (c7_state.connections.filter (fun p => p.2.serviceId == "svc_")).map
          (fun p => RegistryEvent.connectionLost
            { p.2 with status := ConnStatus.disconnected }) ++
        [RegistryEvent.serviceUnregistered "svc_"]) :=
  ⟨(c7_unregister "ghost" (initialState defaultRequiredConfig)).1 rfl,
   (c7_unregister "svc_" c7_state).2 (by decide)⟩

/-- C5: `getService` gives an exact id (map key) match precedence; when the
query is no id, it returns exactly the first entry in registration order
whose name matches; and registering two specs with the same name (into a
catalog where that name is no existing id or name and the two minted ids are
fresh, which is `nanoid`'s contract) yields two distinct ids, with
`getService(name)` returning the first-registered of the two. -/
theorem c5_getService_lookup (st : RegistryState) (q : String) (s1 s2 : ServiceSpec)
    (hname : s2.name = s1.name)
    (hnameid : mapGet st.services s1.name = none)
    (hnofn : ∀ p ∈ st.services, p.2.name ≠ s1.name)
    (hfresh1 : mapGet st.services (genId s1.name st.nextId) = none)
    (hfresh2 : mapGet st.services (genId s1.name (st.nextId + 1)) = none) :
    (∀ e, mapGet st.services q = some e → getService st q = some e) ∧
    (mapGet st.services q = none →
      ∀ e, (getService st q = some e ↔
        ∃ l1 l2, mapValues st.services = l1 ++ e :: l2 ∧ e.name = q ∧
          ∀ x ∈ l1, x.name ≠ q)) ∧
    ((registerService s1 st).1.id ≠
       (registerService s2 (registerService s1 st).2.1).1.id ∧
     getService (registerService s2 (registerService s1 st).2.1).2.1 s1.name =
       some (registerService s1 st).1) := by
  refine ⟨?_, ?_, ?_⟩
  · intro e h
    simp [getService, h]
  · intro hq e
    simp only [getService, hq]
    rw [List.find?_eq_some]
    constructor
    · rintro ⟨hpb, l1, l2, hsplit, hall⟩
      refine ⟨l1, l2, hsplit, by simpa using hpb, ?_⟩
      intro x hx
      simpa using hall x hx
    · rintro ⟨l1, l2, hsplit, hbn, hall⟩
      refine ⟨by simpa using hbn, l1, l2, hsplit, ?_⟩
      intro a ha
      simpa using hall a ha
  · have hid1 := registerService_id s1 st
    have hname1 := registerService_name s1 st
    have hnext1 := registerService_nextId s1 st
    have hid2 := registerService_id s2 (registerService s1 st).2.1
    have hsvc2 := registerService_services s2 (registerService s1 st).2.1
    rw [hnext1, hname] at hid2 hsvc2
    have hid_ne : genId s1.name st.nextId ≠ genId s1.name (st.nextId + 1) := by
      intro h
      have := genId_inj_right _ _ _ h
      omega
    have hserv1 : (registerService s1 st).2.1.services =
        st.services ++ [(genId s1.name st.nextId, (registerService s1 st).1)] := by
      rw [registerService_services s1 st, mapSet_fresh _ _ _ hfresh1]
    have hg2 : mapGet (registerService s1 st).2.1.services
        (genId s1.name (st.nextId + 1)) = none := by
      rw [hserv1, mapGet_append, hfresh2]
      simp [mapGet, hid_ne]
    have hserv2 : (registerService s2 (registerService s1 st).2.1).2.1.services =
        st.services ++
          [(genId s1.name st.nextId, (registerService s1 st).1),
           (genId s1.name (st.nextId + 1),
             (registerService s2 (registerService s1 st).2.1).1)] := by
      rw [hsvc2, mapSet_fresh _ _ _ hg2, hserv1, List.append_assoc]
      rfl
    have hne1 : genId s1.name st.nextId ≠ s1.name :=
      genId_ne_name _ _ _ (le_refl _)
    have hne2 : genId s1.name (st.nextId + 1) ≠ s1.name :=
      genId_ne_name _ _ _ (le_refl _)
    have hkey : mapGet (registerService s2 (registerService s1 st).2.1).2.1.services
        s1.name = none := by
      rw [hserv2, mapGet_append, hnameid]
      simp [mapGet, hne1, hne2]
    have hvals : mapValues (registerService s2 (registerService s1 st).2.1).2.1.services =
        mapValues st.services ++
          [(registerService s1 st).1,
           (registerService s2 (registerService s1 st).2.1).1] := by
      rw [hserv2]
      simp [mapValues]
    have hnone : (mapValues st.services).find? (fun s => s.name == s1.name) = none := by
      rw [List.find?_eq_none]
      intro x hx
      simp only [mapValues, List.mem_map] at hx
      obtain ⟨p, hp, rfl⟩ := hx
      simpa using hnofn p hp
    refine ⟨?_, ?_⟩
    · rw [hid1, hid2]
      exact hid_ne
    · simp only [getService, hkey, hvals, List.find?_append, hnone]
      simp [List.find?_cons, hname1]

/-- Witness for C5 at concrete inputs: two registrations named `dup` into an
empty registry. -/
theorem c5_getService_lookup_witness :
    (∀ e, mapGet (initialState defaultRequiredConfig).services "dup" = some e →
      getService (initialState defaultRequiredConfig) "dup" = some e) ∧
    (mapGet (initialState defaultRequiredConfig).services "dup" = none →
      ∀ e, (getService (initialState defaultRequiredConfig) "dup" = some e ↔
        ∃ l1 l2, mapValues (initialState defaultRequiredConfig).services =
            l1 ++ e :: l2 ∧ e.name = "dup" ∧ ∀ x ∈ l1, x.name ≠ "dup")) ∧
    ((registerService ⟨"dup", "api", "http://a.io", "", "", none, none⟩
        (initialState defaultRequiredConfig)).1.id ≠
       (registerService ⟨"dup", "api", "http://b.io", "", "", none, none⟩
         (registerService ⟨"dup", "api", "http://a.io", "", "", none, none⟩
           (initialState defaultRequiredConfig)).2.1).1.id ∧
     getService (registerService ⟨"dup", "api", "http://b.io", "", "", none, none⟩
         (registerService ⟨"dup", "api", "http://a.io", "", "", none, none⟩
           (initialState defaultRequiredConfig)).2.1).2.1 "dup" =
       some (registerService ⟨"dup", "api", "http://a.io", "", "", none, none⟩
         (initialState defaultRequiredConfig)).1) :=
  c5_getService_lookup (initialState defaultRequiredConfig) "dup"
    ⟨"dup", "api", "http://a.io", "", "", none, none⟩
    ⟨"dup", "api", "http://b.io", "", "", none, none⟩
    rfl rfl (fun p hp => absurd hp (List.not_mem_nil p)) rfl rfl

end ChittyRegistry
